import Mathlib

/-
Verification of the btc-miner command console (src/btc-miner/src/main.rs).

The program is a line-oriented dispatcher over a bitcoincore RPC client plus
a periodic timer loop.  We embed it shallowly: the remote client is a record
of call outcomes, each embedded function returns an `Effect` recording the
remote calls issued (in order), the lines printed to standard output and to
standard error, and whether the function returned normally or panicked
(Rust `expect` / `unwrap` on an error value).
-/

namespace BtcMiner

/-- Outcome of running one embedded function: `ok` models a normal return,
`panicked` models a Rust panic (process termination), carrying the panic text. -/
inductive ExecResult where
  | ok : ExecResult
  | panicked : String → ExecResult
deriving DecidableEq

/-- A remote RPC call issued to the node, with its arguments.
Amounts are modelled as exact rationals. -/
inductive RemoteCall where
  | getBlockCount : RemoteCall
  | getBalance : RemoteCall
  | getRawMempool : RemoteCall
  | getNewAddress : RemoteCall
  | generateToAddress : Nat → String → RemoteCall
  | sendToAddress : String → ℚ → RemoteCall
deriving DecidableEq

/-- The observable effect of one embedded function: the ordered list of remote
calls it issued, the lines it printed to stdout and to stderr, and whether it
returned normally or panicked. -/
structure Effect where
  calls : List RemoteCall
  stdout : List String
  stderr : List String
  result : ExecResult
deriving DecidableEq

/-- An effect that issues no calls, prints nothing, and returns normally. -/
def Effect.empty : Effect :=
  { calls := [], stdout := [], stderr := [], result := ExecResult.ok }

/-- An effect that only prints one line to standard error and returns normally. -/
def Effect.err (m : String) : Effect :=
  { calls := [], stdout := [], stderr := [m], result := ExecResult.ok }

/-- The remote bitcoincore RPC client, modelled as the outcome each operation
would return if called.  `Except.error e` models a remote failure with cause
text `e`.  (The real client is the external bitcoincore-rpc crate; per-call
outcomes are all the program observes.) -/
structure RpcClient where
  getBlockCount : Except String Nat
  getBalance : Except String String
  getRawMempool : Except String (List String)
  getNewAddress : Except String String
  generateToAddress : Nat → String → Except String (List String)
  sendToAddress : String → ℚ → Except String String

/-- Embeds the `conditional_print!` macro of main.rs: the message is printed
(appears on stdout) exactly when the condition holds. -/
def conditional_print (condition : Bool) (msg : String) : List String :=
  if condition then [msg] else []

/-- Rust digit-string value, `foldl` over ASCII digits. -/
def digitsToNat (ds : List Char) : Nat :=
  ds.foldl (fun a c => a * 10 + (c.toNat - 48)) 0

/-- Modelled from the Rust standard library: `f64::from_str` restricted to
plain decimal literals (optional sign, digits, optional fractional part; no
exponent, infinity or nan forms).  The value is the exact rational denoted by
the literal; binary rounding of `f64` preserves sign and zero, which is all
the program depends on. -/
def parseF64 (s : String) : Option ℚ :=
  let core : List Char → Option ℚ := fun ds =>
    let ip := ds.takeWhile Char.isDigit
    let r := ds.dropWhile Char.isDigit
    match r with
    | [] => if ip.isEmpty then none else some ((digitsToNat ip : ℚ))
    | '.' :: fr =>
        if fr.all Char.isDigit && !(ip.isEmpty && fr.isEmpty) then
          some ((digitsToNat ip : ℚ) + (digitsToNat fr : ℚ) / ((10 : ℚ) ^ fr.length))
        else none
    | _ => none
  match s.toList with
  | '-' :: rest => (core rest).map (fun q => -q)
  | '+' :: rest => core rest
  | cs => core cs

/-- Modelled from the external bitcoin crate: `Amount::from_btc` fails exactly
on values outside the representable range; the only case the program can hit
with a parsed decimal that matters here is a negative value. -/
def Amount_from_btc (q : ℚ) : Option ℚ :=
  if q < 0 then none else some q

/-- Panic text of `Result::unwrap` on an error value with cause `e` (text
approximated; only the fact of the panic matters). -/
def unwrapMsg (e : String) : String :=
  "called unwrap on an error value: " ++ e

/-- Panic text of the `Amount::from_btc(..).unwrap()` in `handle_input_line`. -/
def amountUnwrapMsg : String :=
  unwrapMsg "amount out of range"

/-- Embeds `check_block_count`: `get_block_count().expect(..)` panics on a
remote failure; on success the count is printed. -/
def check_block_count (c : RpcClient) : Effect :=
  match c.getBlockCount with
  | Except.ok n =>
      { calls := [RemoteCall.getBlockCount],
        stdout := ["Current block count: " ++ toString n],
        stderr := [], result := ExecResult.ok }
  | Except.error e =>
      { calls := [RemoteCall.getBlockCount], stdout := [], stderr := [],
        result := ExecResult.panicked ("Failed to get block count: " ++ e) }

/-- Embeds `check_balance`: `get_balance(..).expect(..)` panics on a remote
failure; on success the balance is printed. -/
def check_balance (c : RpcClient) : Effect :=
  match c.getBalance with
  | Except.ok b =>
      { calls := [RemoteCall.getBalance],
        stdout := ["Current balance: " ++ b],
        stderr := [], result := ExecResult.ok }
  | Except.error e =>
      { calls := [RemoteCall.getBalance], stdout := [], stderr := [],
        result := ExecResult.panicked ("Failed to get balance: " ++ e) }

/-- Remote-failure report text of `send_to_address`. -/
def sendFailMsg (addr e : String) : String :=
  "Failed to send amount to address " ++ addr ++ ". Error " ++ e

/-- Embeds `send_to_address`: parse the address (external bitcoin crate,
modelled by the `parseAddress` capability), report a parse failure to stderr
and return; otherwise issue `sendToAddress` and report the transaction id or
the remote failure cause to stdout.  Never panics. -/
def send_to_address (c : RpcClient) (parseAddress : String → Except String String)
    (address_string : String) (amount : ℚ) : Effect :=
  match parseAddress address_string with
  | Except.error e =>
      { calls := [], stdout := [], stderr := ["Error parsing address " ++ e],
        result := ExecResult.ok }
  | Except.ok recipient_address =>
      match c.sendToAddress recipient_address amount with
      | Except.ok tx_id =>
          { calls := [RemoteCall.sendToAddress recipient_address amount],
            stdout := ["TxID: " ++ tx_id], stderr := [], result := ExecResult.ok }
      | Except.error e =>
          { calls := [RemoteCall.sendToAddress recipient_address amount],
            stdout := [sendFailMsg address_string e], stderr := [],
            result := ExecResult.ok }

/-- Success report text of the mining tick, carrying the pending count. -/
def genSuccessMsg (n : Nat) : String :=
  "Generated and sent new block. Transaction count: " ++ toString n

/-- Block-generation failure report text of the mining tick. -/
def genErrMsg (e : String) : String :=
  "Error generating block " ++ e

/-- Mempool-query failure report text of the mining tick. -/
def mempoolErrMsg (e : String) : String :=
  "Error getting transactions from mempool " ++ e

/-- Embeds `generate_blocks_if_required`: query the mempool; with pending
transactions, `get_new_address().unwrap()` (panics on failure) then generate
one block to it, reporting success or failure through `conditional_print`.
The mempool-failure arm is kept literally as in the source: the report sits
under `if !do_print` yet the print itself is gated on `do_print`. -/
def generate_blocks_if_required (c : RpcClient) (do_print : Bool) : Effect :=
  let out0 := conditional_print do_print "Checking for new transactions"
  match c.getRawMempool with
  | Except.ok pending_transactions =>
      if pending_transactions.length > 0 then
        let out1 := out0 ++ conditional_print do_print "Found new transactions, generating block"
        match c.getNewAddress with
        | Except.ok new_address =>
            match c.generateToAddress 1 new_address with
            | Except.ok _ =>
                { calls := [RemoteCall.getRawMempool, RemoteCall.getNewAddress,
                            RemoteCall.generateToAddress 1 new_address],
                  stdout := out1 ++ conditional_print do_print (genSuccessMsg pending_transactions.length),
                  stderr := [], result := ExecResult.ok }
            | Except.error e =>
                { calls := [RemoteCall.getRawMempool, RemoteCall.getNewAddress,
                            RemoteCall.generateToAddress 1 new_address],
                  stdout := out1 ++ conditional_print do_print (genErrMsg e),
                  stderr := [], result := ExecResult.ok }
        | Except.error e =>
            { calls := [RemoteCall.getRawMempool, RemoteCall.getNewAddress],
              stdout := out1, stderr := [],
              result := ExecResult.panicked (unwrapMsg e) }
      else
        { calls := [RemoteCall.getRawMempool],
          stdout := out0 ++ conditional_print do_print "No new transactions found",
          stderr := [], result := ExecResult.ok }
  | Except.error e =>
      { calls := [RemoteCall.getRawMempool],
        stdout := out0 ++ (if !do_print then conditional_print do_print (mempoolErrMsg e) else []),
        stderr := [], result := ExecResult.ok }

/-- Embeds `str::split(sep)` of Rust on a one-character separator: every
occurrence of the separator ends a token, adjacent separators and a leading or
trailing separator yield empty tokens, and the empty input yields one empty
token. -/
def splitChar (sep : Char) : List Char → List (List Char)
  | [] => [[]]
  | c :: rest =>
      if c = sep then
        [] :: splitChar sep rest
      else
        match splitChar sep rest with
        | [] => [[c]]
        | t :: ts => (c :: t) :: ts

/-- Joins token lists with a single separator character between them
(left inverse of `splitChar`). -/
def joinWithSep (sep : Char) : List (List Char) → List Char
  | [] => []
  | [t] => t
  | t :: t2 :: ts => t ++ sep :: joinWithSep sep (t2 :: ts)

/-- The token list the dispatcher works on: `line.split(' ')` of the source. -/
def tokenize (line : String) : List String :=
  (splitChar ' ' line.toList).map (fun t => String.mk t)

/-- ASCII whitespace test used by the spec-side tokenizer. -/
def isWhitespaceChar (c : Char) : Bool :=
  c = ' ' || c = Char.ofNat 9 || c = Char.ofNat 10 || c = Char.ofNat 13

/-- Spec-side tokenizer accumulator: split on runs of whitespace, discarding
empty tokens. -/
def splitWhitespaceAux : List Char → List Char → List (List Char)
  | [], acc => if acc.isEmpty then [] else [acc.reverse]
  | c :: rest, acc =>
      if isWhitespaceChar c then
        if acc.isEmpty then splitWhitespaceAux rest []
        else acc.reverse :: splitWhitespaceAux rest []
      else splitWhitespaceAux rest (c :: acc)

/-- Modelled from the claim wording for comparison (refinement direction):
split the line on whitespace, with runs of any whitespace characters
separating tokens identically. -/
def splitWhitespaceSpec (line : String) : List String :=
  (splitWhitespaceAux line.toList []).map (fun t => String.mk t)

/-- The `sendtoaddress` arm of `handle_input_line`: two `args.next()` calls,
each missing argument reported as "Bitcoin address required"; then
`f64::from_str` on the amount (parse failure reported), then
`Amount::from_btc(..).unwrap()` (panics on a negative amount), then
`send_to_address`. -/
def sendtoaddress_cmd (c : RpcClient) (parseAddress : String → Except String String)
    (args : List String) : Effect :=
  match args with
  | [] => Effect.err "Bitcoin address required"
  | address :: rest =>
      match rest with
      | [] => Effect.err "Bitcoin address required"
      | amount :: _ =>
          match parseF64 amount with
          | some amount_f64 =>
              match Amount_from_btc amount_f64 with
              | some amt => send_to_address c parseAddress address amt
              | none =>
                  { calls := [], stdout := [], stderr := [],
                    result := ExecResult.panicked amountUnwrapMsg }
          | none => Effect.err ("Error parsing amount " ++ amount)

/-- The dispatch over the token list of `handle_input_line`: the first token
is matched case-sensitively and exactly against the four commands (the Rust
`match` on `args.next()`); anything else, the empty first token included,
reports "Invalid command" to stderr. -/
def dispatch (c : RpcClient) (parseAddress : String → Except String String) :
    List String → Effect
  | [] => Effect.err "Invalid command"
  | cmd :: args =>
      if cmd = "sendtoaddress" then sendtoaddress_cmd c parseAddress args
      else if cmd = "mine" then generate_blocks_if_required c true
      else if cmd = "balance" then check_balance c
      else if cmd = "blockcount" then check_block_count c
      else Effect.err "Invalid command"

/-- Embeds `handle_input_line`: `line.split(' ')` then dispatch on the
resulting tokens. -/
def handle_input_line (c : RpcClient) (parseAddress : String → Except String String)
    (line : String) : Effect :=
  dispatch c parseAddress (tokenize line)

/-- The timer interval of the console loop (`Duration::from_secs(15)`). -/
def timerIntervalSecs : Nat := 15

/-- The mutable state the console loop owns: the instant the sleep timer is
armed to fire. -/
structure LoopState where
  sleepDeadline : Nat
deriving DecidableEq

/-- An event one `select!` iteration of the loop services. -/
inductive Event where
  | inputLine : String → Event
  | timerElapsed : Event
deriving DecidableEq

/-- Embeds the body of the `select!` loop in `main`: an available input line
is passed to `handle_input_line` and the timer state is left untouched; on
timer elapse the (commented-out) mining call does nothing and the sleep is
reset to `Instant::now() + Duration::from_secs(15)`.  `now` is the instant
the event is handled. -/
def loop_step (c : RpcClient) (parseAddress : String → Except String String)
    (st : LoopState) (now : Nat) : Event → LoopState × Effect
  | Event.inputLine line => (st, handle_input_line c parseAddress line)
  | Event.timerElapsed => ({ sleepDeadline := now + timerIntervalSecs }, Effect.empty)

/-- A client on which every operation succeeds, for concrete evaluations. -/
def okClient : RpcClient :=
  { getBlockCount := Except.ok 7,
    getBalance := Except.ok "0.50000000 BTC",
    getRawMempool := Except.ok [],
    getNewAddress := Except.ok "addr-new",
    generateToAddress := fun _ _ => Except.ok ["blockhash0"],
    sendToAddress := fun _ _ => Except.ok "txid-1" }

/-- An address parser that accepts every string, for concrete evaluations. -/
def paOk : String → Except String String := fun s => Except.ok s

/-- A client whose block-count query fails, all else as `okClient`. -/
def clientBCFail : RpcClient :=
  { okClient with getBlockCount := Except.error "bc-err" }

/-- A client whose mempool query fails, all else as `okClient`. -/
def clientMpFail : RpcClient :=
  { okClient with getRawMempool := Except.error "mp-err" }

/-- A client with three pending transactions whose new-address request fails. -/
def clientNAFail : RpcClient :=
  { okClient with getRawMempool := Except.ok ["t1", "t2", "t3"],
                  getNewAddress := Except.error "na-err" }

/-- A client with three pending transactions on which everything succeeds. -/
def clientC8 : RpcClient :=
  { okClient with getRawMempool := Except.ok ["t1", "t2", "t3"] }

/-- A client on which block count, balance, block generation and sending all
fail, while the mempool and new-address queries succeed. -/
def clientC1 : RpcClient :=
  { getBlockCount := Except.error "bc-err",
    getBalance := Except.error "bal-err",
    getRawMempool := Except.ok ["t1"],
    getNewAddress := Except.ok "na1",
    generateToAddress := fun _ _ => Except.error "gen-err",
    sendToAddress := fun _ _ => Except.error "send-err" }

/-- A client with one pending transaction whose new-address request fails. -/
def clientC1NA : RpcClient :=
  { okClient with getRawMempool := Except.ok ["t1"],
                  getNewAddress := Except.error "na-err" }

/- ------------------------------------------------------------------ -/
/- Helper lemmas on the tokenizer                                      -/
/- ------------------------------------------------------------------ -/

/-- `splitChar` always produces at least one token. -/
theorem splitChar_ne_nil (sep : Char) (cs : List Char) : splitChar sep cs ≠ [] := by
  cases cs with
  | nil => simp [splitChar]
  | cons c rest =>
      simp only [splitChar]
      split
      · simp
      · split <;> simp

/-- Joining the tokens of `splitChar` with the separator restores the input:
the split consumes exactly one separator character between adjacent tokens. -/
theorem joinWithSep_splitChar (sep : Char) (cs : List Char) :
    joinWithSep sep (splitChar sep cs) = cs := by
  induction cs with
  | nil => rfl
  | cons c rest ih =>
      simp only [splitChar]
      by_cases h : c = sep
      · rw [if_pos h]
        cases hs : splitChar sep rest with
        | nil => exact absurd hs (splitChar_ne_nil sep rest)
        | cons t ts =>
            rw [hs] at ih
            subst h
            simpa [joinWithSep] using ih
      · rw [if_neg h]
        cases hs : splitChar sep rest with
        | nil => exact absurd hs (splitChar_ne_nil sep rest)
        | cons t ts =>
            rw [hs] at ih
            cases ts with
            | nil => simpa [joinWithSep] using ih
            | cons u us => simpa [joinWithSep] using ih

/-- The number of tokens of `splitChar` is one more than the number of
separator occurrences: every single separator character separates. -/
theorem splitChar_length (sep : Char) (cs : List Char) :
    (splitChar sep cs).length = cs.count sep + 1 := by
  induction cs with
  | nil => simp [splitChar]
  | cons c rest ih =>
      simp only [splitChar]
      by_cases h : c = sep
      · rw [if_pos h]
        simp [List.count_cons, h, ih]
      · rw [if_neg h]
        cases hs : splitChar sep rest with
        | nil => exact absurd hs (splitChar_ne_nil sep rest)
        | cons t ts =>
            rw [hs] at ih
            simp [List.count_cons, h, ← ih]

/-- No token produced by `splitChar` contains the separator. -/
theorem splitChar_sep_not_mem (sep : Char) (cs : List Char) :
    ∀ t ∈ splitChar sep cs, sep ∉ t := by
  induction cs with
  | nil =>
      intro t ht
      simp [splitChar] at ht
      subst ht
      simp
  | cons c rest ih =>
      intro t ht
      simp only [splitChar] at ht
      by_cases h : c = sep
      · rw [if_pos h] at ht
        rcases List.mem_cons.mp ht with h1 | h1
        · subst h1; simp
        · exact ih t h1
      · rw [if_neg h] at ht
        cases hs : splitChar sep rest with
        | nil => exact absurd hs (splitChar_ne_nil sep rest)
        | cons u us =>
            rw [hs] at ht
            rcases List.mem_cons.mp ht with h1 | h1
            · subst h1
              intro hmem
              rcases List.mem_cons.mp hmem with h2 | h2
              · exact h h2.symm
              · exact ih u (by rw [hs]; exact List.mem_cons_self u us) h2
            · exact ih t (by rw [hs]; exact List.mem_cons.mpr (Or.inr h1))

/- ------------------------------------------------------------------ -/
/- Claim theorems                                                      -/
/- ------------------------------------------------------------------ -/

/-- Claim C1, counterexample: a failing `getBlockCount` is not caught and not
reported — `check_block_count` panics (the process terminates) with nothing
printed, contradicting the claim that every remote failure is caught and
reported as text without terminating the process. -/
theorem C1_counterexample :
    (check_block_count clientBCFail).result =
      ExecResult.panicked ("Failed to get block count: " ++ "bc-err") ∧
    (check_block_count clientBCFail).stdout = [] ∧
    (check_block_count clientBCFail).stderr = [] := by
  decide

/-- Claim C1, amended: failures of `sendToAddress` and `generateToAddress`
are caught and reported as text without terminating, but failures of
`getBlockCount`, `getBalance` (through `expect`) and `getNewAddress`
(through `unwrap`) panic and terminate the process. -/
theorem C1_amended (c cNA : RpcClient) (pa : String → Except String String)
    (addrStr addr na e1 e2 e3 e4 e5 : String) (amt : ℚ) (mp mp2 : List String)
    (hpa : pa addrStr = Except.ok addr)
    (hsend : c.sendToAddress addr amt = Except.error e1)
    (hmp : c.getRawMempool = Except.ok mp) (hmpne : 0 < mp.length)
    (hna : c.getNewAddress = Except.ok na)
    (hgen : c.generateToAddress 1 na = Except.error e2)
    (hbc : c.getBlockCount = Except.error e3)
    (hbal : c.getBalance = Except.error e4)
    (hmp2 : cNA.getRawMempool = Except.ok mp2) (hmp2ne : 0 < mp2.length)
    (hna2 : cNA.getNewAddress = Except.error e5) :
    ((send_to_address c pa addrStr amt).result = ExecResult.ok ∧
     (send_to_address c pa addrStr amt).stdout = [sendFailMsg addrStr e1]) ∧
    ((generate_blocks_if_required c true).result = ExecResult.ok ∧
     (generate_blocks_if_required c true).stdout =
       ["Checking for new transactions", "Found new transactions, generating block",
        genErrMsg e2]) ∧
    (check_block_count c).result = ExecResult.panicked ("Failed to get block count: " ++ e3) ∧
    (check_balance c).result = ExecResult.panicked ("Failed to get balance: " ++ e4) ∧
    (generate_blocks_if_required cNA true).result = ExecResult.panicked (unwrapMsg e5) := by
  refine ⟨⟨?_, ?_⟩, ⟨?_, ?_⟩, ?_, ?_, ?_⟩
  · simp [send_to_address, hpa, hsend]
  · simp [send_to_address, hpa, hsend]
  · simp [generate_blocks_if_required, hmp, hmpne, hna, hgen]
  · simp [generate_blocks_if_required, hmp, hmpne, hna, hgen, conditional_print]
  · simp [check_block_count, hbc]
  · simp [check_balance, hbal]
  · simp [generate_blocks_if_required, hmp2, hmp2ne, hna2]

/-- Claim C1, witness for the amended theorem at concrete clients. -/
theorem C1_amended_witness :
    ((send_to_address clientC1 paOk "a1" 1).result = ExecResult.ok ∧
     (send_to_address clientC1 paOk "a1" 1).stdout = [sendFailMsg "a1" "send-err"]) ∧
    ((generate_blocks_if_required clientC1 true).result = ExecResult.ok ∧
     (generate_blocks_if_required clientC1 true).stdout =
       ["Checking for new transactions", "Found new transactions, generating block",
        genErrMsg "gen-err"]) ∧
    (check_block_count clientC1).result =
      ExecResult.panicked ("Failed to get block count: " ++ "bc-err") ∧
    (check_balance clientC1).result =
      ExecResult.panicked ("Failed to get balance: " ++ "bal-err") ∧
    (generate_blocks_if_required clientC1NA true).result =
      ExecResult.panicked (unwrapMsg "na-err") :=
  C1_amended clientC1 clientC1NA paOk "a1" "a1" "na1" "send-err" "gen-err" "bc-err"
    "bal-err" "na-err" 1 ["t1"] ["t1"] rfl rfl rfl (by decide) rfl rfl rfl rfl rfl
    (by decide) rfl

/-- Claim C2, counterexample: a mining tick with verbose = false whose mempool
query fails produces the empty effect — the failure is not reported anywhere,
contradicting the claim that it is still reported to the output. -/
theorem C2_counterexample :
    generate_blocks_if_required clientMpFail false =
      { calls := [RemoteCall.getRawMempool], stdout := [], stderr := [],
        result := ExecResult.ok } := by
  decide

/-- Claim C2, amended: when the mempool query fails, nothing is ever reported,
for either value of verbose: the guard checks `!verbose`, but the print it
guards is itself gated on `verbose`, so the error message can never appear;
only the verbose-mode header line is printed, and the tick returns normally. -/
theorem C2_amended (c : RpcClient) (e : String) (verbose : Bool)
    (h : c.getRawMempool = Except.error e) :
    (generate_blocks_if_required c verbose).stdout =
      (if verbose then ["Checking for new transactions"] else []) ∧
    (generate_blocks_if_required c verbose).stderr = [] ∧
    (generate_blocks_if_required c verbose).result = ExecResult.ok := by
  cases verbose <;> simp [generate_blocks_if_required, h, conditional_print]

/-- Claim C2, witness for the amended theorem at a concrete client. -/
theorem C2_amended_witness :
    (generate_blocks_if_required clientMpFail false).stdout =
      (if false then ["Checking for new transactions"] else []) ∧
    (generate_blocks_if_required clientMpFail false).stderr = [] ∧
    (generate_blocks_if_required clientMpFail false).result = ExecResult.ok :=
  C2_amended clientMpFail "mp-err" false rfl

/-- Claim C3, counterexample: `sendtoaddress dest -1` does not issue a remote
call, but it is not rejected with a locally reported error either — the
dispatcher panics (the `Amount::from_btc(..).unwrap()`), terminating the
process instead of returning normally to the loop. -/
theorem C3_counterexample :
    handle_input_line okClient paOk "sendtoaddress dest -1" =
      { calls := [], stdout := [], stderr := [],
        result := ExecResult.panicked amountUnwrapMsg } := by
  decide

/-- Claim C3, amended: on a `sendtoaddress` line whose amount parses to a
negative value, no remote call is issued and nothing is reported by the
dispatcher, but the dispatcher does not return normally: the unwrap of the
amount conversion panics and terminates the process. -/
theorem C3_amended (c : RpcClient) (pa : String → Except String String)
    (line a amt : String) (rest : List String) (q : ℚ)
    (h : tokenize line = "sendtoaddress" :: a :: amt :: rest)
    (hq : parseF64 amt = some q) (hneg : q < 0) :
    handle_input_line c pa line =
      { calls := [], stdout := [], stderr := [],
        result := ExecResult.panicked amountUnwrapMsg } := by
  unfold handle_input_line tokenize
  unfold tokenize at h
  rw [h]
  simp [dispatch, sendtoaddress_cmd, hq, Amount_from_btc, hneg]

/-- Claim C3, witness for the amended theorem at a concrete line. -/
theorem C3_amended_witness :
    handle_input_line okClient paOk "sendtoaddress abc -1" =
      { calls := [], stdout := [], stderr := [],
        result := ExecResult.panicked amountUnwrapMsg } :=
  C3_amended okClient paOk "sendtoaddress abc -1" "abc" "-1" [] (-1)
    (by decide) (by decide) (by decide)

/-- Claim C4, counterexample: handling an input-line event at instant 100
leaves a stale deadline 0 unchanged, so the next timer deadline is not at
least the configured interval after the instant the handling completed —
only the timer branch rearms the timer. -/
theorem C4_counterexample :
    (loop_step okClient paOk { sleepDeadline := 0 } 100
        (Event.inputLine "blockcount")).1.sleepDeadline = 0 ∧
    ¬ (100 + timerIntervalSecs ≤
        (loop_step okClient paOk { sleepDeadline := 0 } 100
          (Event.inputLine "blockcount")).1.sleepDeadline) := by
  decide

/-- Claim C4, amended: only a timer-elapsed event rearms the timer, to fire
exactly the configured interval (15 seconds) after the current instant;
handling an input-line event leaves the timer deadline unchanged, so after an
input event the next deadline may lie arbitrarily far in the past. -/
theorem C4_amended (c : RpcClient) (pa : String → Except String String)
    (st : LoopState) (now : Nat) (line : String) :
    (loop_step c pa st now Event.timerElapsed).1.sleepDeadline =
      now + timerIntervalSecs ∧
    (loop_step c pa st now (Event.inputLine line)).1 = st :=
  ⟨rfl, rfl⟩

/-- Claim C5: on a timer-elapsed event the loop body performs no action other
than rearming the timer — the mining tick is not invoked, no remote call is
issued and no output is produced (the background mining call is commented
out), and the deadline is reset to the current instant plus the interval. -/
theorem C5_timer_noop (c : RpcClient) (pa : String → Except String String)
    (st : LoopState) (now : Nat) :
    (loop_step c pa st now Event.timerElapsed).2 = Effect.empty ∧
    (loop_step c pa st now Event.timerElapsed).1.sleepDeadline =
      now + timerIntervalSecs :=
  ⟨rfl, rfl⟩

/-- Claim C6, counterexample: splitting is not on whitespace runs.  Under the
claimed whitespace tokenization, " mine" has first token "mine" and should be
dispatched as the mine command, but the dispatcher reports it as an invalid
command with no remote call, while "mine" itself is not reported invalid. -/
theorem C6_counterexample :
    splitWhitespaceSpec " mine" = ["mine"] ∧
    handle_input_line okClient paOk " mine" = Effect.err "Invalid command" ∧
    handle_input_line okClient paOk "mine" ≠ Effect.err "Invalid command" := by
  decide

/-- Claim C6, amended: the dispatcher splits the line on the single space
character, not on whitespace runs: the tokens contain no space, joining them
with exactly one space between adjacent tokens restores the line (so runs of
spaces yield empty tokens and no other character separates), the token count
is the space count plus one, and the dispatcher acts on exactly this token
list, matching the first token case-sensitively. -/
theorem C6_amended (c : RpcClient) (pa : String → Except String String)
    (line : String) :
    handle_input_line c pa line =
      dispatch c pa ((splitChar ' ' line.toList).map (fun t => String.mk t)) ∧
    joinWithSep ' ' (splitChar ' ' line.toList) = line.toList ∧
    (splitChar ' ' line.toList).length = line.toList.count ' ' + 1 ∧
    ∀ t ∈ splitChar ' ' line.toList, ' ' ∉ t :=
  ⟨rfl, joinWithSep_splitChar ' ' line.toList, splitChar_length ' ' line.toList,
    splitChar_sep_not_mem ' ' line.toList⟩

/-- Claim C7: a `sendtoaddress` line with fewer than two argument tokens
produces exactly one error line on standard error, issues no remote call, and
returns normally to the loop. -/
theorem C7_missing_args (c : RpcClient) (pa : String → Except String String)
    (line : String) (rest : List String)
    (h : tokenize line = "sendtoaddress" :: rest) (hlen : rest.length < 2) :
    handle_input_line c pa line = Effect.err "Bitcoin address required" := by
  unfold handle_input_line
  rw [h]
  cases rest with
  | nil => simp [dispatch, sendtoaddress_cmd]
  | cons a rest2 =>
      cases rest2 with
      | nil => simp [dispatch, sendtoaddress_cmd]
      | cons b rest3 =>
          simp only [List.length_cons] at hlen
          omega

/-- Claim C7, witness at a concrete one-argument line. -/
theorem C7_missing_args_witness :
    handle_input_line okClient paOk "sendtoaddress a1" =
      Effect.err "Bitcoin address required" :=
  C7_missing_args okClient paOk "sendtoaddress a1" ["a1"] (by decide) (by decide)

/-- Claim C8, counterexample: with three pending transactions but a failing
new-address request, the tick issues the new-address request and then panics:
no generate-1-block request is ever issued, contradicting the claim that every
verbose tick with a nonzero pending count issues exactly one new-address
request followed by exactly one generate-1-block request. -/
theorem C8_counterexample :
    (generate_blocks_if_required clientNAFail true).calls =
      [RemoteCall.getRawMempool, RemoteCall.getNewAddress] ∧
    (generate_blocks_if_required clientNAFail true).result =
      ExecResult.panicked (unwrapMsg "na-err") := by
  decide

/-- Claim C8, amended: on a verbose tick whose mempool query reports a nonzero
pending count and whose new-address request succeeds, the tick issues exactly
one new-address request followed by exactly one generate-1-block request, in
that order, returns normally, and on generation success reports the pending
count observed at the time of the check; if the new-address request fails the
process panics instead (see the counterexample). -/
theorem C8_amended (c : RpcClient) (mp : List String) (na : String)
    (hmp : c.getRawMempool = Except.ok mp) (hne : 0 < mp.length)
    (hna : c.getNewAddress = Except.ok na) :
    (generate_blocks_if_required c true).calls =
      [RemoteCall.getRawMempool, RemoteCall.getNewAddress,
       RemoteCall.generateToAddress 1 na] ∧
    (generate_blocks_if_required c true).result = ExecResult.ok ∧
    ∀ s, c.generateToAddress 1 na = Except.ok s →
      (generate_blocks_if_required c true).stdout =
        ["Checking for new transactions", "Found new transactions, generating block",
         genSuccessMsg mp.length] := by
  refine ⟨?_, ?_, ?_⟩
  · cases hg : c.generateToAddress 1 na <;>
      simp [generate_blocks_if_required, hmp, hne, hna, hg]
  · cases hg : c.generateToAddress 1 na <;>
      simp [generate_blocks_if_required, hmp, hne, hna, hg]
  · intro s hg
    simp [generate_blocks_if_required, hmp, hne, hna, hg, conditional_print]

/-- Claim C8, witness for the amended theorem at a concrete client with three
pending transactions. -/
theorem C8_amended_witness :
    (generate_blocks_if_required clientC8 true).calls =
      [RemoteCall.getRawMempool, RemoteCall.getNewAddress,
       RemoteCall.generateToAddress 1 "addr-new"] ∧
    (generate_blocks_if_required clientC8 true).result = ExecResult.ok ∧
    (generate_blocks_if_required clientC8 true).stdout =
      ["Checking for new transactions", "Found new transactions, generating block",
       genSuccessMsg 3] := by
  have h := C8_amended clientC8 ["t1", "t2", "t3"] "addr-new" rfl (by decide) rfl
  exact ⟨h.1, h.2.1, h.2.2 ["blockhash0"] rfl⟩

/-- Claim C9: any input line whose first token is not one of the four
commands — the empty line included — produces exactly one "Invalid command"
line on standard error and issues no remote call. -/
theorem C9_invalid_command (c : RpcClient) (pa : String → Except String String)
    (line : String)
    (h : ((tokenize line).headD "") ∉
      (["sendtoaddress", "mine", "balance", "blockcount"] : List String)) :
    handle_input_line c pa line = Effect.err "Invalid command" := by
  unfold handle_input_line
  cases htok : tokenize line with
  | nil => simp [dispatch]
  | cons cmd args =>
      rw [htok] at h
      simp only [List.headD_cons, List.mem_cons, List.mem_singleton,
        List.not_mem_nil, or_false] at h
      push_neg at h
      obtain ⟨h1, h2, h3, h4⟩ := h
      simp [dispatch, h1, h2, h3, h4]

/-- Claim C9, witness at the empty input line. -/
theorem C9_invalid_command_witness :
    handle_input_line okClient paOk "" = Effect.err "Invalid command" :=
  C9_invalid_command okClient paOk "" (by decide)

/-- Claim C10: on a `sendtoaddress` line with the address present but the
amount missing, the error printed to standard error is "Bitcoin address
required" — the address-required message, identical to the one printed when
the address itself is missing. -/
theorem C10_missing_amount_message (c : RpcClient)
    (pa : String → Except String String) (line a : String)
    (h : tokenize line = ["sendtoaddress", a]) :
    (handle_input_line c pa line).stderr = ["Bitcoin address required"] ∧
    (handle_input_line c pa line).stderr =
      (handle_input_line c pa "sendtoaddress").stderr := by
  have h1 : handle_input_line c pa line = Effect.err "Bitcoin address required" := by
    unfold handle_input_line
    rw [h]
    simp [dispatch, sendtoaddress_cmd]
  have ht : tokenize "sendtoaddress" = ["sendtoaddress"] := by decide
  have h2 : handle_input_line c pa "sendtoaddress" =
      Effect.err "Bitcoin address required" := by
    unfold handle_input_line
    rw [ht]
    simp [dispatch, sendtoaddress_cmd]
  rw [h1, h2]
  exact ⟨rfl, rfl⟩

/-- Claim C10, witness at a concrete line with the amount missing. -/
theorem C10_missing_amount_message_witness :
    (handle_input_line okClient paOk "sendtoaddress dest").stderr =
      ["Bitcoin address required"] ∧
    (handle_input_line okClient paOk "sendtoaddress dest").stderr =
      (handle_input_line okClient paOk "sendtoaddress").stderr :=
  C10_missing_amount_message okClient paOk "sendtoaddress dest" "dest" (by decide)

end BtcMiner
